import Mathlib

/-!
Verification development for the `registro-chamados` automation scripts
(`main.py`, `main_corrigido.py`, `teste.py`).

The repository drives a browser through a ticket-registration workflow and
writes results back to a spreadsheet.  Browser interactions are inherently
external, so the embedding below is parameterised by an *environment*: each
point where the scripts query or act on the live page is represented by an
oracle value, while all spreadsheet state, control flow, retry counters,
exception handling and the pure string manipulation are translated directly
from the Python source.
-/

namespace RegistroChamados

/-! ## Python string primitives

These model the exact Python `str` operations used by the scripts, on the
character sets those scripts can actually encounter (ASCII plus the accented
Portuguese letters appearing in `SERVICOS_VALIDOS` and the spreadsheet
messages). -/

/-- Python `str.isdigit` restricted to ASCII digits (the scripts only ever
meet ASCII digits in documents and protocols). -/
def pyIsDigit (c : Char) : Bool :=
  '0' ≤ c && c ≤ '9'

/-- Python whitespace as stripped by `str.strip()` (ASCII subset). -/
def pyIsSpace (c : Char) : Bool :=
  c = ' ' || c = '\t' || c = '\n' || c = '\x0d' || c = '\x0b' || c = '\x0c'

/-- Python `str.strip()` on a character list. -/
def pyStripL (l : List Char) : List Char :=
  ((l.dropWhile pyIsSpace).reverse.dropWhile pyIsSpace).reverse

/-- Python `str.strip()`. -/
def pyStrip (s : String) : String :=
  (pyStripL s.toList).asString

/-- Python `str.lower` on one character: ASCII letters plus the uppercase
accented letters of the alphabet used by the scripts. -/
def pyLowerChar (c : Char) : Char :=
  if 'A' ≤ c && c ≤ 'Z' then Char.ofNat (c.toNat + 32)
  else if c = 'Á' then 'á' else if c = 'À' then 'à'
  else if c = 'Ã' then 'ã' else if c = 'Â' then 'â'
  else if c = 'É' then 'é' else if c = 'Ê' then 'ê'
  else if c = 'Í' then 'í'
  else if c = 'Ó' then 'ó' else if c = 'Ô' then 'ô' else if c = 'Õ' then 'õ'
  else if c = 'Ú' then 'ú' else if c = 'Ç' then 'ç'
  else c

/-- Python `str.lower()`. -/
def pyLower (s : String) : String :=
  (s.toList.map pyLowerChar).asString

/-- The chain of single-character `str.replace` calls in `normalizar_servico`
(`á à ã â → a`, `é ê → e`, `í → i`, `ó ô õ → o`, `ú → u`, `ç → c`).  Each
pattern is a single character and no replacement output is itself a pattern,
so the chain is one character map. -/
def removerAcentoChar (c : Char) : Char :=
  if c = 'á' || c = 'à' || c = 'ã' || c = 'â' then 'a'
  else if c = 'é' || c = 'ê' then 'e'
  else if c = 'í' then 'i'
  else if c = 'ó' || c = 'ô' || c = 'õ' then 'o'
  else if c = 'ú' then 'u'
  else if c = 'ç' then 'c'
  else c

/-- Python `str.zfill(w)` on a character list. -/
def pyZfillL (w : Nat) (l : List Char) : List Char :=
  if l.length ≥ w then l
  else List.replicate (w - l.length) '0' ++ l

/-! ## `normalizar_servico` (identical in all three files) -/

/-- A Python value as far as `normalizar_servico` is concerned: either a
`str` or some non-string value (returned untouched by the function). -/
inductive PyVal where
  | pyStr (s : String)
  | pyOther (id : Nat)
  deriving DecidableEq, Repr

/-- The `SERVICOS_VALIDOS` dictionary, as an association list in source
order. -/
def SERVICOS_VALIDOS : List (String × String) :=
  [ ("dúvida negocial", "Dúvida Negocial")
  , ("duvida negocial", "Dúvida Negocial")
  , ("duvida negociacao", "Dúvida Negocial")
  , ("dúvida negociacao", "Dúvida Negocial")
  , ("duvida de negocio", "Dúvida Negocial")
  , ("duvida negocio", "Dúvida Negocial")
  , ("dúvida técnica", "Dúvida Técnica")
  , ("duvida tecnica", "Dúvida Técnica")
  , ("duvida de tecnica", "Dúvida Técnica")
  , ("ambiente de testes", "Ambiente de testes")
  , ("ambiente testes", "Ambiente de testes")
  , ("ambiente de teste", "Ambiente de testes")
  , ("ambiente teste", "Ambiente de testes")
  , ("erro de documentação", "Erro De Documentação")
  , ("erro de documentacao", "Erro De Documentação")
  , ("erro documentacao", "Erro De Documentação")
  , ("erro documentação", "Erro De Documentação")
  , ("integração imcompleta", "Integração Imcompleta")
  , ("integracao imcompleta", "Integração Imcompleta")
  , ("integracao incompleta", "Integração Imcompleta")
  , ("integração incompleta", "Integração Imcompleta")
  , ("sugestão de melhoria", "Sugestão De Melhoria")
  , ("sugestao de melhoria", "Sugestão De Melhoria")
  , ("sugestao melhoria", "Sugestão De Melhoria")
  , ("sugestão melhoria", "Sugestão De Melhoria") ]

/-- The key computed by `normalizar_servico`:
`servico.strip().lower().replace(...)…`. -/
def chaveServico (s : String) : String :=
  ((pyStripL s.toList).map pyLowerChar |>.map removerAcentoChar).asString

/-- `normalizar_servico` from the source: non-strings are returned unchanged;
strings are looked up by normalised key in `SERVICOS_VALIDOS`, defaulting to
the original string. -/
def normalizar_servico : PyVal → PyVal
  | .pyOther n => .pyOther n
  | .pyStr s =>
    match SERVICOS_VALIDOS.lookup (chaveServico s) with
    | some v => .pyStr v
    | none => .pyStr s

/-! ## `formatar_documento` (identical in all three files) -/

/-- The digit characters of a string, in order (`filter(str.isdigit, …)`). -/
def digitosDe (s : String) : List Char :=
  s.toList.filter pyIsDigit

/-- `formatar_documento` from the source.  The scripts call it on strings
(`str(documento)` is the identity there). -/
def formatar_documento (documento : String) : String :=
  let numeros := digitosDe documento
  if numeros.length = 11 then
    let n := pyZfillL 11 numeros
    ((n.take 3) ++ '.' :: ((n.drop 3).take 3) ++ '.' :: ((n.drop 6).take 3)
      ++ '-' :: (n.drop 9)).asString
  else if numeros.length = 14 then
    let n := pyZfillL 14 numeros
    ((n.take 2) ++ '.' :: ((n.drop 2).take 3) ++ '.' :: ((n.drop 5).take 3)
      ++ '/' :: ((n.drop 8).take 4) ++ '-' :: (n.drop 12)).asString
  else documento

/-! ## `verificar_tela_atual` (identical logic in `main.py` and `teste.py`)

The function probes the live page for three markers in a fixed order; any
exception other than the wait timeouts makes it answer `"desconhecida"`.
The page observation is therefore either an error or three booleans (the
three `presence_of_element_located` probes). -/

inductive PageObs where
  | ok (campoDocumento selectConta algumForm : Bool)
  | errored
  deriving DecidableEq, Repr

/-- `verificar_tela_atual` over a page observation. -/
def verificar_tela_atual : PageObs → String
  | .errored => "desconhecida"
  | .ok campoDocumento selectConta algumForm =>
    if campoDocumento then "consulta"
    else if selectConta then "selecao_conta"
    else if algumForm then "formulario"
    else "desconhecida"

/-! ## The ticket-description logic of `preencher_campos_formulario`

`main.py` (lines 1162–1176), `main_corrigido.py` (lines 689–691) and
`teste.py` (lines 964–966) share the exact computation, differing only in
the fixed default message. -/

/-- A spreadsheet cell as read by pandas: `NaN` (empty cell) or a string.
`str(nan) = "nan"`, `pd.isna` is true exactly on `NaN`. -/
inductive Cell where
  | nanC
  | strC (s : String)
  deriving DecidableEq, Repr

/-- Python `str(cell)`. -/
def cellStr : Cell → String
  | .nanC => "nan"
  | .strC s => s

/-- `pd.isna(cell)`. -/
def pdIsna : Cell → Bool
  | .nanC => true
  | .strC _ => false

/-- The description computed before filling the `description` field:
`observacao = str(row.get('Observação', '')).strip()` and then the default
message is used when the cell is NaN, the stripped text lowercases to
`"nan"`, is empty, or is shorter than 10 characters. -/
def definirDescricao (mensagemPadrao : String) (celula : Cell) : String :=
  let observacao := pyStrip (cellStr celula)
  if pdIsna celula || pyLower observacao == "nan" || observacao == ""
      || observacao.length < 10
  then mensagemPadrao
  else observacao

/-- Default message in `main.py`. -/
def MENSAGEM_PADRAO_MAIN : String := "Chamado registrado via automação"

/-- Default message in `main_corrigido.py`. -/
def MENSAGEM_PADRAO_CORRIGIDO : String :=
  "Chamado da Plataforma de atendimento digital registrado via automação"

/-- Default message in `teste.py`. -/
def MENSAGEM_PADRAO_TESTE : String :=
  "Registro de atendimento realizado na Plataforma de Atendimento Digital via automação"

/-! ## Spreadsheet state

A row carries the columns the scripts read and write.  The spreadsheet state
is the in-memory `df` plus the on-disk file; `df.to_excel(EXCEL_PATH, …)`
copies the table to the file.  Spreadsheet I/O itself is assumed reliable
(the scripts never guard it). -/

structure Row where
  documento : String
  protocoloPlad : Cell
  categoria : String
  servico : String
  cooperativa : String
  observacao : Cell
  deriving DecidableEq, Repr

structure Planilha where
  table : List Row
  file : List Row
  deriving DecidableEq, Repr

/-- Update the row at an index (out-of-range writes are dropped; the loop
only ever writes at the index it is iterating, which is in range). -/
def updRow (f : Row → Row) : Nat → List Row → List Row
  | _, [] => []
  | 0, r :: rs => f r :: rs
  | n + 1, r :: rs => r :: updRow f n rs

/-- `df.at[index, 'Observação'] = msg`. -/
def setObs (i : Nat) (msg : String) (p : Planilha) : Planilha :=
  { p with table := updRow (fun r => { r with observacao := .strC msg }) i p.table }

/-- `df.at[index, 'Protocolo PLAD'] = v`. -/
def setProtocoloPlad (i : Nat) (v : String) (p : Planilha) : Planilha :=
  { p with table := updRow (fun r => { r with protocoloPlad := .strC v }) i p.table }

/-- `df.to_excel(EXCEL_PATH, index=False)`. -/
def toExcel (p : Planilha) : Planilha :=
  { p with file := p.table }

/-- `log_error(error, context, index, df)` with an index and a frame: writes
`"Erro em {context}: {error}"` into the row's Observação and saves. -/
def logError (contexto msg : String) (i : Nat) (p : Planilha) : Planilha :=
  toExcel (setObs i ("Erro em " ++ contexto ++ ": " ++ msg) p)

/-- The Observação cell of row `i`. -/
def obsNa (p : Planilha) (i : Nat) : Option Cell :=
  (p.table[i]?).map (·.observacao)

/-- The Protocolo PLAD cell of row `i`. -/
def protocoloNa (p : Planilha) (i : Nat) : Option Cell :=
  (p.table[i]?).map (·.protocoloPlad)

/-! ## Browser environment for `main.py`'s per-row pipeline

Each interaction point of the pipeline is an oracle value; recursive
invocations of `preencher_formulario` consult the environment at successive
indices `k`, so the page may answer differently each time, exactly as the
live site may. -/

/-- Outcome of the browser part of `preencher_campos_formulario`: either
every field fill, Registrar and Confirmar click succeed and a protocol text
is captured, or some step raises (`FormularioError`, a wait timeout, …) with
message `msg`, which the function's own catch-all handler absorbs. -/
inductive CamposEv where
  | successo (protocolo : String)
  | falha (msg : String)
  deriving DecidableEq, Repr

/-- Outcome of re-reading the account `select` after selecting it. -/
inductive ContaCheckEv where
  | valorOk
  | valorVazio
  | excecao (msg : String)
  deriving DecidableEq, Repr

/-- Outcome of the document-filling block of the `"consulta"` branch:
either it completes with the typed digits matching (or not), or some step
inside the block raises with message `msg`. -/
inductive DocEv where
  | preenchido (digitosConferem : Bool)
  | excecao (msg : String)
  deriving DecidableEq, Repr

/-- Outcome of `finalizar_atendimento`'s browser steps in `main.py`:
success, the modal never disappearing, or an exception of one of the three
handled kinds raised by the waits/clicks. -/
inductive FinalEv where
  | sucesso
  | modalPreso
  | timeoutEx (msg : String)
  | elementoEx (msg : String)
  | outroEx (msg : String)
  deriving DecidableEq, Repr

structure RowEnv where
  pagina : Nat → PageObs
  campos : Nat → CamposEv
  contaSelecionada : Nat → Bool
  contaValor : Nat → ContaCheckEv
  menuCobranca : Nat → Bool
  botaoRegistro : Nat → Bool
  categoriaPronta : Nat → Bool
  documento : Nat → DocEv
  botaoConsulta : Nat → Bool
  pessoaNaoEncontrada : Nat → Bool
  botaoAbrir : Nat → Bool
  paginaDepoisAbrir : Nat → PageObs
  finalizacao : FinalEv

/-! ## `main.py`'s form pipeline -/

/-- `preencher_campos_formulario` (main.py 978–1238), state part.  On
success the captured confirmation number is written into the row's
`'Protocolo PLAD'` column and the sheet is saved; on any exception the
catch-all handler writes the error note and saves. -/
def preencher_campos_formulario (ev : CamposEv) (i : Nat) (p : Planilha) :
    Planilha × Option String :=
  match ev with
  | .successo protocolo => (toExcel (setProtocoloPlad i protocolo p), some protocolo)
  | .falha msg =>
    (toExcel (setObs i ("Erro ao preencher campos do formulário: " ++ msg) p), none)

/-- `preencher_formulario` (main.py 1240–1430).  `tentativa` counts the
retries of the unknown-screen branch; `k` indexes the environment per
invocation; `fuel` bounds the recursion (in Python the `"consulta"` branch
restarts with `tentativa` reset to 0, so an adversarial page can recurse
unboundedly — fuel 0 stands for that never-terminating situation and
returns the state unchanged). -/
def preencher_formulario (env : RowEnv) (i : Nat) :
    Nat → Nat → Planilha → Nat → Planilha × Option String
  | _, _, p, 0 => (p, none)
  | tentativa, k, p, fuel + 1 =>
    if tentativa ≥ 3 then
      (toExcel (setObs i "Número máximo de tentativas excedido para esta tela" p), none)
    else
      let tela := verificar_tela_atual (env.pagina k)
      if tela = "formulario" then
        preencher_campos_formulario (env.campos k) i p
      else if tela = "selecao_conta" then
        if !env.contaSelecionada k then
          (toExcel (setObs i "Falha ao selecionar conta" p), none)
        else
          match env.contaValor k with
          | .excecao m =>
            (toExcel (setObs i ("Erro ao verificar seleção da conta: " ++ m) p), none)
          | .valorVazio =>
            (toExcel (setObs i "Conta não foi selecionada corretamente" p), none)
          | .valorOk =>
            if !env.menuCobranca k then
              (toExcel (setObs i "Falha ao clicar no menu Cobrança" p), none)
            else if !env.botaoRegistro k then
              (toExcel (setObs i "Falha ao clicar no botão de registro de chamado" p), none)
            else if env.categoriaPronta k then
              preencher_campos_formulario (env.campos k) i p
            else
              (toExcel (setObs i "Formulário não abriu corretamente ou campos não apareceram" p),
               none)
      else if tela = "consulta" then
        match env.documento k with
        | .excecao m =>
          (toExcel (setObs i ("Erro ao preencher documento: " ++ m) p), none)
        | .preenchido conferem =>
          if !conferem then
            (toExcel (setObs i "Falha ao preencher documento" p), none)
          else if !env.botaoConsulta k then
            (toExcel (setObs i "Falha ao clicar no botão consultar" p), none)
          else if env.pessoaNaoEncontrada k then
            (toExcel (setObs i "Pessoa não encontrada" p), none)
          else if !env.botaoAbrir k then
            (toExcel (setObs i "Falha ao clicar no botão Abrir" p), none)
          else if verificar_tela_atual (env.paginaDepoisAbrir k) = "selecao_conta" then
            preencher_formulario env i 0 (k + 1) p fuel
          else
            (toExcel (setObs i "Tela não mudou para seleção de conta após clicar em Abrir" p),
             none)
      else
        preencher_formulario env i (tentativa + 1) (k + 1) p fuel

/-! ## `tentar_preencher_formulario` (main.py 1432–1449)

The loop body either returns `preencher_formulario`'s value, raises
`FormularioError` (the only caught kind), or raises something else (for
example `driver.refresh()` failing), which escapes the loop.  The body is
kept as an oracle so the retry logic is stated for any callee behaviour;
the concrete pipeline instantiates it below. -/

inductive AttRes where
  | retorna (p : Planilha) (resultado : Option String)
  | excFormulario (p : Planilha) (msg : String)
  | excOutra (p : Planilha) (msg : String)

inductive TentarOut where
  | retorno (p : Planilha) (resultado : Option String)
  | excecao (p : Planilha) (msg : String)
  deriving DecidableEq, Repr

def tentarAux (attempt : Nat → Planilha → AttRes) (i maxT : Nat) :
    Nat → Nat → Planilha → TentarOut
  | _, 0, p => .retorno p none
  | t, rem + 1, p =>
    match attempt t p with
    | .retorna q r => .retorno q r
    | .excOutra q m => .excecao q m
    | .excFormulario q m =>
      if rem = 0 then
        .retorno
          (toExcel (setObs i ("Erro após " ++ toString maxT ++ " tentativas: " ++ m) q)) none
      else tentarAux attempt i maxT (t + 1) rem q

/-- `tentar_preencher_formulario` with its default `max_tentativas=3`. -/
def tentar_preencher_formulario (attempt : Nat → Planilha → AttRes) (i : Nat)
    (p : Planilha) : TentarOut :=
  tentarAux attempt i 3 0 3 p

/-- One attempt of the concrete pipeline: `preencher_formulario` catches
every exception itself, so each attempt plainly returns. -/
def pipelineAttempt (env : RowEnv) (fuel i : Nat) : Nat → Planilha → AttRes :=
  fun _t p =>
    let r := preencher_formulario env i 0 0 p fuel
    .retorna r.1 r.2

/-! ## `finalizar_atendimento` (main.py 1451–1488) and the main loop -/

/-- `finalizar_atendimento`: on success returns with the state untouched;
on failure it calls `log_error` (note written, sheet saved) and raises a
`FinalizacaoError`, returned here as `some` message. -/
def finalizar_atendimento (ev : FinalEv) (i : Nat) (p : Planilha) :
    Planilha × Option String :=
  match ev with
  | .sucesso => (p, none)
  | .modalPreso =>
    (logError "finalização do atendimento" "Modal não desapareceu a tempo" i p,
     some ("Falha ao finalizar atendimento: " ++ "Modal não desapareceu a tempo"))
  | .timeoutEx m =>
    (logError "finalização do atendimento" m i p, some ("Timeout durante finalização: " ++ m))
  | .elementoEx m =>
    (logError "finalização do atendimento" m i p,
     some ("Elemento não encontrado durante finalização: " ++ m))
  | .outroEx m =>
    (logError "finalização do atendimento" m i p,
     some ("Falha ao finalizar atendimento: " ++ m))

inductive StepOut where
  | processado
  | comErro
  | excecao (msg : String)
  deriving DecidableEq, Repr

/-- The body of `main`'s per-row `try` block (main.py 1520–1533):
`if tentar_preencher_formulario(…): if finalizar_atendimento(…): …`.
An empty captured protocol is falsy in Python, hence counted as an error. -/
def processar_registro (env : RowEnv) (fuel i : Nat) (p : Planilha) :
    Planilha × StepOut :=
  match tentar_preencher_formulario (pipelineAttempt env fuel i) i p with
  | .excecao q m => (q, .excecao m)
  | .retorno q r =>
    match r with
    | none => (q, .comErro)
    | some protocolo =>
      if protocolo = "" then (q, .comErro)
      else
        match finalizar_atendimento env.finalizacao i q with
        | (q', none) => (q', .processado)
        | (q', some m) => (q', .excecao m)

/-- `main`'s row loop (main.py 1519–1538): every exception reaching the
loop is absorbed by `log_error(e, "processamento do registro", index, df)`
and the loop continues with the next row. -/
def main_loop (envs : Nat → RowEnv) (fuel : Nat) :
    List Nat → Planilha → Nat → Nat → Planilha × Nat × Nat
  | [], p, processados, comErro => (p, processados, comErro)
  | i :: resto, p, processados, comErro =>
    match processar_registro (envs i) fuel i p with
    | (q, .processado) => main_loop envs fuel resto q (processados + 1) comErro
    | (q, .comErro) => main_loop envs fuel resto q processados (comErro + 1)
    | (q, .excecao m) =>
      main_loop envs fuel resto (logError "processamento do registro" m i q)
        processados (comErro + 1)

/-! ## `login` (main.py 137–247) and `main` (main.py 1490–1562) -/

inductive RunErr where
  | loginError
  deriving DecidableEq, Repr

/-- `login`: `attOk t` tells whether attempt `t` ends logged in (already
authenticated, or credentials + QR scan succeed).  Any failure on a non-last
attempt continues the loop; a failure on the last attempt raises
`LoginError` (the messages of the nested wrappings are elided — only the
exception class matters to the callers). -/
def login (attOk : Nat → Bool) : Nat → Nat → Except RunErr Bool
  | _, 0 => .error .loginError
  | t, rem + 1 =>
    if attOk t then .ok true
    else if rem = 0 then .error .loginError
    else login attOk (t + 1) rem

/-- `main`: credentials and driver set up, then `login` (3 attempts); only
after it succeeds is the spreadsheet loaded and the row loop run.  The outer
handler logs and re-raises, so a `LoginError` aborts the whole run. -/
def mainRun (attOk : Nat → Bool) (envs : Nat → RowEnv) (fuel : Nat)
    (df : List Row) : Except RunErr (Planilha × Nat × Nat) :=
  match login attOk 0 3 with
  | .error e => .error e
  | .ok _ => .ok (main_loop envs fuel (List.range df.length) ⟨df, df⟩ 0 0)

/-! ## Claim-side predicates (phrased from the specification's words, to be
compared against the source-derived definitions above) -/

/-- The condition under which, per the claim, the submitted description is
the row's own text: a non-NaN string whose stripped form is non-empty, does
not lowercase to `"nan"`, and has at least 10 characters. -/
def observacaoValida : Cell → Bool
  | .nanC => false
  | .strC s =>
    let t := pyStrip s
    !(t == "") && !(pyLower t == "nan") && decide (10 ≤ t.length)

/-- The claimed shape `ddd.ddd.ddd-dd`. -/
def formaCpf (s : String) : Prop :=
  ∃ a b c d : List Char,
    s.toList = a ++ '.' :: b ++ '.' :: c ++ '-' :: d
    ∧ a.length = 3 ∧ b.length = 3 ∧ c.length = 3 ∧ d.length = 2
    ∧ (a ++ b ++ c ++ d).all pyIsDigit = true

/-- The claimed shape `dd.ddd.ddd/dddd-dd`. -/
def formaCnpj (s : String) : Prop :=
  ∃ a b c d e : List Char,
    s.toList = a ++ '.' :: b ++ '.' :: c ++ '/' :: d ++ '-' :: e
    ∧ a.length = 2 ∧ b.length = 3 ∧ c.length = 3 ∧ d.length = 4 ∧ e.length = 2
    ∧ (a ++ b ++ c ++ d ++ e).all pyIsDigit = true

/-! ## Helper lemmas -/

theorem updRow_get_self (f : Row → Row) :
    ∀ (i : Nat) (l : List Row), (updRow f i l)[i]? = (l[i]?).map f := by
  intro i
  induction i with
  | zero => intro l; cases l <;> simp [updRow]
  | succ n ih => intro l; cases l <;> simp [updRow, ih]

theorem updRow_get_ne (f : Row → Row) :
    ∀ (i j : Nat) (l : List Row), j ≠ i → (updRow f i l)[j]? = l[j]? := by
  intro i
  induction i with
  | zero =>
    intro j l hj
    cases l with
    | nil => simp [updRow]
    | cons r rs => cases j with
      | zero => exact absurd rfl hj
      | succ m => simp [updRow]
  | succ n ih =>
    intro j l hj
    cases l with
    | nil => simp [updRow]
    | cons r rs => cases j with
      | zero => simp [updRow]
      | succ m =>
        have : m ≠ n := fun h => hj (by simp [h])
        simp [updRow, ih m rs this]

theorem lookup_snd_mem {α β : Type} [BEq α] [LawfulBEq α] (a : α) (b : β) :
    ∀ l : List (α × β), List.lookup a l = some b → b ∈ l.map Prod.snd := by
  intro l
  induction l with
  | nil => intro h; simp [List.lookup] at h
  | cons hd tl ih =>
    intro h
    rw [List.lookup] at h
    by_cases hk : a == hd.1
    · simp [hk] at h; simp [← h]
    · simp [hk] at h
      exact List.mem_cons.mpr (Or.inr (ih h))

/-- Every canonical value of `SERVICOS_VALIDOS` normalises to itself. -/
theorem canonicos_fixos :
    ∀ v ∈ SERVICOS_VALIDOS.map Prod.snd,
      normalizar_servico (.pyStr v) = .pyStr v := by decide

theorem preencher_campos_file_eq (ev : CamposEv) (i : Nat) (p : Planilha) :
    ((preencher_campos_formulario ev i p).1).file
      = ((preencher_campos_formulario ev i p).1).table := by
  cases ev <;> rfl

/-! ## C7 -/

/-- C7: `verificar_tela_atual` always answers one of exactly four tags,
testing the consultation field first, then the account-selection select,
then any form, and answering `"desconhecida"` when nothing is detected or
an error occurs. -/
theorem C7_verificar_tela_atual_tags :
    (∀ obs : PageObs,
        verificar_tela_atual obs = "consulta"
        ∨ verificar_tela_atual obs = "selecao_conta"
        ∨ verificar_tela_atual obs = "formulario"
        ∨ verificar_tela_atual obs = "desconhecida")
    ∧ (∀ s f : Bool, verificar_tela_atual (.ok true s f) = "consulta")
    ∧ (∀ f : Bool, verificar_tela_atual (.ok false true f) = "selecao_conta")
    ∧ verificar_tela_atual (.ok false false true) = "formulario"
    ∧ verificar_tela_atual (.ok false false false) = "desconhecida"
    ∧ verificar_tela_atual .errored = "desconhecida" := by
  refine ⟨?_, ?_, ?_, rfl, rfl, rfl⟩
  · intro obs
    cases obs with
    | errored => simp [verificar_tela_atual]
    | ok c s f =>
      cases c <;> cases s <;> cases f <;> simp [verificar_tela_atual]
  · intro s f; rfl
  · intro f; rfl

/-! ## C9 -/

/-- C9: `normalizar_servico` is idempotent; every canonical dictionary value
is a fixed point, strings whose normalised key misses the dictionary are
returned unchanged, and non-strings are returned unchanged. -/
theorem C9_normalizar_servico_idempotent :
    (∀ v : PyVal, normalizar_servico (normalizar_servico v) = normalizar_servico v)
    ∧ (∀ par ∈ SERVICOS_VALIDOS, normalizar_servico (.pyStr par.2) = .pyStr par.2)
    ∧ (∀ s : String, SERVICOS_VALIDOS.lookup (chaveServico s) = none →
        normalizar_servico (.pyStr s) = .pyStr s)
    ∧ (∀ n : Nat, normalizar_servico (.pyOther n) = .pyOther n) := by
  have hfix : ∀ v ∈ SERVICOS_VALIDOS.map Prod.snd,
      normalizar_servico (.pyStr v) = .pyStr v := canonicos_fixos
  have hnone : ∀ s : String, SERVICOS_VALIDOS.lookup (chaveServico s) = none →
      normalizar_servico (.pyStr s) = .pyStr s := by
    intro s h; simp [normalizar_servico, h]
  refine ⟨?_, ?_, hnone, fun n => rfl⟩
  · intro v
    cases v with
    | pyOther n => rfl
    | pyStr s =>
      cases h : SERVICOS_VALIDOS.lookup (chaveServico s) with
      | none =>
        rw [hnone s h, hnone s h]
      | some v =>
        have h1 : normalizar_servico (.pyStr s) = .pyStr v := by
          simp [normalizar_servico, h]
        rw [h1, hfix v (lookup_snd_mem _ _ _ h)]
  · intro par hpar
    exact hfix par.2 (List.mem_map.mpr ⟨par, hpar, rfl⟩)

/-- Witness for C9 at concrete inputs. -/
theorem C9_witness :
    normalizar_servico (.pyStr "Dúvida Negocial") = .pyStr "Dúvida Negocial"
    ∧ normalizar_servico (.pyStr "assunto avulso") = .pyStr "assunto avulso" :=
  ⟨C9_normalizar_servico_idempotent.2.1 ("dúvida negocial", "Dúvida Negocial") (by decide),
   C9_normalizar_servico_idempotent.2.2.1 "assunto avulso" (by decide)⟩

/-! ## C10 -/

/-- C10, counterexample: a valid Observação with surrounding whitespace is
submitted *stripped*, so the description differs from the row's Observação
text even though every condition of the claim holds. -/
theorem C10_counterexample :
    definirDescricao MENSAGEM_PADRAO_MAIN (.strC "  reclamacao do cooperado  ")
      = "reclamacao do cooperado"
    ∧ "reclamacao do cooperado" ≠ "  reclamacao do cooperado  "
    ∧ observacaoValida (.strC "  reclamacao do cooperado  ") = true := by
  refine ⟨by decide, by decide, by decide⟩

/-- C10, amended: for each file's default message, the submitted description
equals the *stripped* Observação text exactly when the cell is a non-NaN
string whose stripped form is non-empty, is not `"nan"` (case-insensitive)
and has at least 10 characters; otherwise it is the default message. -/
theorem C10_descricao_spec :
    ∀ (mensagemPadrao : String) (celula : Cell),
      definirDescricao mensagemPadrao celula =
        if observacaoValida celula then pyStrip (cellStr celula) else mensagemPadrao := by
  intro mensagemPadrao celula
  cases celula with
  | nanC => simp [definirDescricao, observacaoValida, pdIsna]
  | strC s =>
    simp only [definirDescricao, observacaoValida, pdIsna, cellStr]
    by_cases h1 : pyStrip s = ""
    · simp [h1]
    · by_cases h2 : pyLower (pyStrip s) = "nan"
      · simp [h1, h2]
      · by_cases h3 : (pyStrip s).length < 10
        · simp [h1, h2, h3, Nat.not_le.mpr h3]
        · have h4 : 10 ≤ (pyStrip s).length := Nat.not_lt.mp h3
          simp [h1, h2, h3, h4]

/-! ## C8 -/

theorem digitosDe_asString (l : List Char) :
    digitosDe l.asString = l.filter pyIsDigit := rfl

theorem recombine_cpf (n : List Char) :
    n.take 3 ++ ((n.drop 3).take 3 ++ ((n.drop 6).take 3 ++ n.drop 9)) = n := by
  have h1 : (n.drop 6).take 3 ++ n.drop 9 = n.drop 6 := by
    have := List.take_append_drop 3 (n.drop 6)
    simpa [List.drop_drop] using this
  have h2 : (n.drop 3).take 3 ++ n.drop 6 = n.drop 3 := by
    have := List.take_append_drop 3 (n.drop 3)
    simpa [List.drop_drop] using this
  rw [h1, h2, List.take_append_drop]

theorem recombine_cnpj (n : List Char) :
    n.take 2 ++ ((n.drop 2).take 3 ++ ((n.drop 5).take 3
      ++ ((n.drop 8).take 4 ++ n.drop 12))) = n := by
  have h1 : (n.drop 8).take 4 ++ n.drop 12 = n.drop 8 := by
    have := List.take_append_drop 4 (n.drop 8)
    simpa [List.drop_drop] using this
  have h2 : (n.drop 5).take 3 ++ n.drop 8 = n.drop 5 := by
    have := List.take_append_drop 3 (n.drop 5)
    simpa [List.drop_drop] using this
  have h3 : (n.drop 2).take 3 ++ n.drop 5 = n.drop 2 := by
    have := List.take_append_drop 3 (n.drop 2)
    simpa [List.drop_drop] using this
  rw [h1, h2, h3, List.take_append_drop]

theorem formatar_11 (documento : String) (h11 : (digitosDe documento).length = 11) :
    formatar_documento documento
      = ((digitosDe documento).take 3 ++ '.' :: ((digitosDe documento).drop 3).take 3
          ++ '.' :: ((digitosDe documento).drop 6).take 3
          ++ '-' :: (digitosDe documento).drop 9).asString := by
  have hz : pyZfillL 11 (digitosDe documento) = digitosDe documento := by
    simp [pyZfillL, h11]
  simp [formatar_documento, h11, hz]

theorem formatar_14 (documento : String) (h14 : (digitosDe documento).length = 14) :
    formatar_documento documento
      = ((digitosDe documento).take 2 ++ '.' :: ((digitosDe documento).drop 2).take 3
          ++ '.' :: ((digitosDe documento).drop 5).take 3
          ++ '/' :: ((digitosDe documento).drop 8).take 4
          ++ '-' :: (digitosDe documento).drop 12).asString := by
  have hz : pyZfillL 14 (digitosDe documento) = digitosDe documento := by
    simp [pyZfillL, h14]
  have hne : (digitosDe documento).length ≠ 11 := by omega
  simp [formatar_documento, h14, hne, hz]

/-- C8: `formatar_documento` preserves the digit characters of its input in
order; with exactly 11 digits the result has the shape `ddd.ddd.ddd-dd`,
with exactly 14 the shape `dd.ddd.ddd/dddd-dd`, and with any other digit
count the input is returned unchanged. -/
theorem C8_formatar_documento_spec (documento : String) :
    digitosDe (formatar_documento documento) = digitosDe documento
    ∧ ((digitosDe documento).length = 11 → formaCpf (formatar_documento documento))
    ∧ ((digitosDe documento).length = 14 → formaCnpj (formatar_documento documento))
    ∧ ((digitosDe documento).length ≠ 11 → (digitosDe documento).length ≠ 14 →
        formatar_documento documento = documento) := by
  have hall : ∀ c ∈ digitosDe documento, pyIsDigit c = true :=
    fun c hc => List.of_mem_filter hc
  have hfil : ∀ l : List Char, l ⊆ digitosDe documento → l.filter pyIsDigit = l :=
    fun l hsub => List.filter_eq_self.mpr (fun c hc => hall c (hsub hc))
  have hdot : pyIsDigit '.' = false := rfl
  have hdash : pyIsDigit '-' = false := rfl
  have hslash : pyIsDigit '/' = false := rfl
  have hsub3 : ∀ a b : Nat, ((digitosDe documento).drop a).take b ⊆ digitosDe documento :=
    fun a b => List.Subset.trans (List.take_subset _ _) (List.drop_subset _ _)
  by_cases h11 : (digitosDe documento).length = 11
  · refine ⟨?_, fun _ => ?_, fun h => absurd h (by omega), fun h => absurd h11 h⟩
    · rw [formatar_11 documento h11, digitosDe_asString]
      simp only [List.filter_append, List.filter_cons, hdot, hdash,
        Bool.false_eq_true, if_false,
        hfil _ (List.take_subset _ _), hfil _ (hsub3 3 3), hfil _ (hsub3 6 3),
        hfil _ (List.drop_subset _ _)]
      simpa [List.append_assoc] using recombine_cpf (digitosDe documento)
    · refine ⟨(digitosDe documento).take 3, ((digitosDe documento).drop 3).take 3,
        ((digitosDe documento).drop 6).take 3, (digitosDe documento).drop 9,
        ?_, ?_, ?_, ?_, ?_, ?_⟩
      · rw [formatar_11 documento h11]
        rfl
      · simp only [List.length_take, h11]; omega
      · simp only [List.length_take, List.length_drop, h11]; omega
      · simp only [List.length_take, List.length_drop, h11]; omega
      · simp only [List.length_drop, h11]
      · refine List.all_eq_true.mpr fun c hc => hall c ?_
        simp only [List.append_assoc, List.mem_append] at hc
        rcases hc with h | h | h | h
        · exact List.take_subset _ _ h
        · exact hsub3 3 3 h
        · exact hsub3 6 3 h
        · exact List.drop_subset _ _ h
  · by_cases h14 : (digitosDe documento).length = 14
    · refine ⟨?_, fun h => absurd h h11, fun _ => ?_, fun _ h => absurd h14 h⟩
      · rw [formatar_14 documento h14, digitosDe_asString]
        simp only [List.filter_append, List.filter_cons, hdot, hdash, hslash,
          Bool.false_eq_true, if_false,
          hfil _ (List.take_subset _ _), hfil _ (hsub3 2 3), hfil _ (hsub3 5 3),
          hfil _ (hsub3 8 4), hfil _ (List.drop_subset _ _)]
        simpa [List.append_assoc] using recombine_cnpj (digitosDe documento)
      · refine ⟨(digitosDe documento).take 2, ((digitosDe documento).drop 2).take 3,
          ((digitosDe documento).drop 5).take 3, ((digitosDe documento).drop 8).take 4,
          (digitosDe documento).drop 12, ?_, ?_, ?_, ?_, ?_, ?_, ?_⟩
        · rw [formatar_14 documento h14]
          rfl
        · simp only [List.length_take, h14]; omega
        · simp only [List.length_take, List.length_drop, h14]; omega
        · simp only [List.length_take, List.length_drop, h14]; omega
        · simp only [List.length_take, List.length_drop, h14]; omega
        · simp only [List.length_drop, h14]
        · refine List.all_eq_true.mpr fun c hc => hall c ?_
          simp only [List.append_assoc, List.mem_append] at hc
          rcases hc with h | h | h | h | h
          · exact List.take_subset _ _ h
          · exact hsub3 2 3 h
          · exact hsub3 5 3 h
          · exact hsub3 8 4 h
          · exact List.drop_subset _ _ h
    · have hform : formatar_documento documento = documento := by
        simp [formatar_documento, h11, h14]
      exact ⟨by rw [hform], fun h => absurd h h11, fun h => absurd h h14,
        fun _ _ => hform⟩

/-- Witness for C8 at concrete inputs. -/
theorem C8_witness :
    digitosDe (formatar_documento "cpf 52998224725") = digitosDe "cpf 52998224725"
    ∧ formaCpf (formatar_documento "cpf 52998224725")
    ∧ formatar_documento "doc 123" = "doc 123" :=
  ⟨(C8_formatar_documento_spec "cpf 52998224725").1,
   (C8_formatar_documento_spec "cpf 52998224725").2.1 (by decide),
   (C8_formatar_documento_spec "doc 123").2.2.2 (by decide) (by decide)⟩

/-! ## Pipeline helper lemmas and example data -/

theorem pf_file_eq (env : RowEnv) (i : Nat) :
    ∀ (fuel tentativa k : Nat) (p : Planilha), p.file = p.table →
      ((preencher_formulario env i tentativa k p fuel).1).file
        = ((preencher_formulario env i tentativa k p fuel).1).table := by
  intro fuel
  induction fuel with
  | zero => intro tentativa k p h; exact h
  | succ fuel ih =>
    intro tentativa k p h
    simp only [preencher_formulario]
    split
    · rfl
    repeat'
      first
        | exact preencher_campos_file_eq _ _ _
        | exact ih _ _ _ h
        | rfl
        | split

theorem processar_file_eq (env : RowEnv) (fuel i : Nat) (p : Planilha)
    (h : p.file = p.table) :
    ((processar_registro env fuel i p).1).file
      = ((processar_registro env fuel i p).1).table := by
  have hq := pf_file_eq env i fuel 0 0 p h
  simp only [processar_registro, tentar_preencher_formulario, tentarAux, pipelineAttempt]
  split
  · exact hq
  · split
    · exact hq
    · cases env.finalizacao with
      | sucesso => exact hq
      | modalPreso => rfl
      | timeoutEx m => rfl
      | elementoEx m => rfl
      | outroEx m => rfl

/-- An environment under which every browser step succeeds: the page always
shows the form and the captured confirmation number is `"PORTAL-NOVO"`. -/
def succRowEnv : RowEnv :=
  { pagina := fun _ => .ok false false true
  , campos := fun _ => .successo "PORTAL-NOVO"
  , contaSelecionada := fun _ => true
  , contaValor := fun _ => .valorOk
  , menuCobranca := fun _ => true
  , botaoRegistro := fun _ => true
  , categoriaPronta := fun _ => true
  , documento := fun _ => .preenchido true
  , botaoConsulta := fun _ => true
  , pessoaNaoEncontrada := fun _ => false
  , botaoAbrir := fun _ => true
  , paginaDepoisAbrir := fun _ => .ok false true false
  , finalizacao := .sucesso }

/-- Same environment but `finalizar_atendimento`'s modal never disappears,
so the row step raises a `FinalizacaoError` into the main loop. -/
def envFinalizacaoFalha : RowEnv :=
  { succRowEnv with finalizacao := .modalPreso }

theorem succ_step (F i : Nat) (p : Planilha) :
    processar_registro succRowEnv (F + 1) i p
      = (toExcel (setProtocoloPlad i "PORTAL-NOVO" p), .processado) := by
  simp [processar_registro, tentar_preencher_formulario, tentarAux, pipelineAttempt,
    preencher_formulario, succRowEnv, verificar_tela_atual,
    preencher_campos_formulario, finalizar_atendimento]

/-- The row rewrite performed by a fully successful registration. -/
def marcaProtocolo (r : Row) : Row :=
  { r with protocoloPlad := .strC "PORTAL-NOVO" }

theorem succ_loop_get (F j : Nat) :
    ∀ (idxs : List Nat) (p : Planilha) (a b : Nat),
      ((main_loop (fun _ => succRowEnv) (F + 1) idxs p a b).1).table[j]?
        = if j ∈ idxs then (p.table[j]?).map marcaProtocolo else p.table[j]? := by
  intro idxs
  induction idxs with
  | nil => intro p a b; simp [main_loop]
  | cons i rest ih =>
    intro p a b
    simp only [main_loop, succ_step]
    rw [ih]
    by_cases hji : j = i
    · subst hji
      have hself : ((toExcel (setProtocoloPlad j "PORTAL-NOVO" p)).table)[j]?
          = (p.table[j]?).map marcaProtocolo := by
        simp [toExcel, setProtocoloPlad]
        exact updRow_get_self _ j p.table
      by_cases hjr : j ∈ rest
      · rw [if_pos hjr, if_pos (List.mem_cons_self j rest), hself]
        cases p.table[j]? <;> rfl
      · rw [if_neg hjr, if_pos (List.mem_cons_self j rest), hself]
    · have hget : ((toExcel (setProtocoloPlad i "PORTAL-NOVO" p)).table)[j]? = p.table[j]? := by
        simp [toExcel, setProtocoloPlad]
        exact updRow_get_ne _ i j p.table hji
      rw [hget]
      by_cases hjr : j ∈ rest
      · rw [if_pos hjr, if_pos (List.mem_cons.mpr (Or.inr hjr))]
      · rw [if_neg hjr, if_neg (by simp [List.mem_cons, hji, hjr])]

/-- Example rows and spreadsheet used by the concrete witnesses below. -/
def linhaExemplo : Row :=
  { documento := "12345678901", protocoloPlad := .strC "PLAD-0001"
  , categoria := "Cadastro", servico := "duvida tecnica"
  , cooperativa := "1234", observacao := .nanC }

def planilhaExemplo : Planilha := ⟨[linhaExemplo], [linhaExemplo]⟩

/-- A row whose output-protocol field is already populated from an earlier
run. -/
def linhaMarcada : Row :=
  { documento := "98765432100", protocoloPlad := .strC "PLAD-ANTIGO"
  , categoria := "Cobranca", servico := "duvida negocial"
  , cooperativa := "4321", observacao := .strC "registrado anteriormente" }

/-! ## C1 -/

/-- C1, counterexample: a row whose protocol field is already populated is
*not* skipped — one pass of the main loop over it registers a new ticket and
overwrites its protocol field. -/
theorem C1_counterexample :
    linhaMarcada.protocoloPlad = .strC "PLAD-ANTIGO"
    ∧ (main_loop (fun _ => succRowEnv) 1 [0] ⟨[linhaMarcada], [linhaMarcada]⟩ 0 0).1.table
        = [{ linhaMarcada with protocoloPlad := .strC "PORTAL-NOVO" }]
    ∧ (Cell.strC "PORTAL-NOVO") ≠ .strC "PLAD-ANTIGO" := by
  refine ⟨rfl, by decide, by decide⟩

/-- C1, amended: the main loop never skips a row — on every run it attempts
registration for every row, whatever the row's protocol field holds, so a
fully successful environment rewrites every row's protocol field (there is
no crash-resumability skip). -/
theorem C1_no_skip_all_rows_attempted (df : List Row) (fuel : Nat) (hf : 1 ≤ fuel)
    (j : Nat) (hj : j < df.length) :
    ∃ (q : Planilha) (processados comErro : Nat),
      mainRun (fun _ => true) (fun _ => succRowEnv) fuel df
        = .ok (q, processados, comErro)
      ∧ protocoloNa q j = some (.strC "PORTAL-NOVO") := by
  obtain ⟨F, rfl⟩ : ∃ F, fuel = F + 1 := ⟨fuel - 1, by omega⟩
  refine ⟨(main_loop (fun _ => succRowEnv) (F + 1) (List.range df.length) ⟨df, df⟩ 0 0).1,
    (main_loop (fun _ => succRowEnv) (F + 1) (List.range df.length) ⟨df, df⟩ 0 0).2.1,
    (main_loop (fun _ => succRowEnv) (F + 1) (List.range df.length) ⟨df, df⟩ 0 0).2.2,
    by simp [mainRun, login], ?_⟩
  rw [protocoloNa, succ_loop_get, if_pos (List.mem_range.mpr hj)]
  obtain ⟨r, hr⟩ : ∃ r, df[j]? = some r :=
    ⟨df[j], List.getElem?_eq_getElem hj⟩
  simp [hr, marcaProtocolo]

/-- Witness for C1 at a concrete spreadsheet whose only row is already
marked with a protocol. -/
theorem C1_no_skip_witness :
    ∃ (q : Planilha) (processados comErro : Nat),
      mainRun (fun _ => true) (fun _ => succRowEnv) 1 [linhaMarcada]
        = .ok (q, processados, comErro)
      ∧ protocoloNa q 0 = some (.strC "PORTAL-NOVO") :=
  C1_no_skip_all_rows_attempted [linhaMarcada] 1 (by decide) 0 (by decide)

/-! ## C2 -/

/-- C2, counterexample: the confirmation number captured after Registrar +
Confirmar is written into the row's own `'Protocolo PLAD'` column, so the
input PLAD protocol number does *not* stay unchanged (and no separate
"Portal Protocol" column exists in any of the scripts). -/
theorem C2_counterexample :
    linhaExemplo.protocoloPlad = .strC "PLAD-0001"
    ∧ protocoloNa ((preencher_campos_formulario (.successo "PORTAL-7777") 0
          planilhaExemplo).1) 0
        = some (.strC "PORTAL-7777")
    ∧ (Cell.strC "PORTAL-7777") ≠ .strC "PLAD-0001" := by
  refine ⟨rfl, by decide, by decide⟩

/-- C2, amended: after a successful registration the captured confirmation
number is written into the row's `'Protocolo PLAD'` column itself,
overwriting the input protocol, the spreadsheet is saved, and the captured
number is returned. -/
theorem C2_protocolo_overwrites_plad (i : Nat) (p : Planilha) (protocolo : String) :
    ((preencher_campos_formulario (.successo protocolo) i p).1).table[i]?
        = (p.table[i]?).map (fun r => { r with protocoloPlad := .strC protocolo })
    ∧ (preencher_campos_formulario (.successo protocolo) i p).2 = some protocolo
    ∧ ((preencher_campos_formulario (.successo protocolo) i p).1).file
        = ((preencher_campos_formulario (.successo protocolo) i p).1).table := by
  refine ⟨?_, rfl, rfl⟩
  simpa [preencher_campos_formulario, toExcel, setProtocoloPlad]
    using updRow_get_self (fun r => { r with protocoloPlad := .strC protocolo }) i p.table

/-! ## C3 -/

/-- C3: an exception that reaches the main loop degrades instead of
aborting: the loop continues with the remaining rows after
`log_error(e, "processamento do registro", index, df)`, which writes the
human-readable message naming the failure context into that row's
Observação column and persists the whole table. -/
theorem C3_loop_degrades_and_continues :
    (∀ (envs : Nat → RowEnv) (fuel i : Nat) (resto : List Nat) (p q : Planilha)
        (processados comErro : Nat) (m : String),
        processar_registro (envs i) fuel i p = (q, .excecao m) →
        main_loop envs fuel (i :: resto) p processados comErro
          = main_loop envs fuel resto (logError "processamento do registro" m i q)
              processados (comErro + 1))
    ∧ (∀ (contexto m : String) (i : Nat) (p : Planilha),
        (logError contexto m i p).file = (logError contexto m i p).table
        ∧ (i < p.table.length →
            obsNa (logError contexto m i p) i
              = some (.strC ("Erro em " ++ contexto ++ ": " ++ m)))) := by
  constructor
  · intro envs fuel i resto p q processados comErro m h
    simp [main_loop, h]
  · intro contexto m i p
    refine ⟨rfl, fun hi => ?_⟩
    obtain ⟨r, hr⟩ : ∃ r, p.table[i]? = some r :=
      ⟨p.table[i], List.getElem?_eq_getElem hi⟩
    simp [obsNa, logError, toExcel, setObs, updRow_get_self, hr]

/-- Witness for C3: a failing finalisation raises into the loop, which logs,
annotates the row, persists and moves on. -/
theorem C3_witness :
    main_loop (fun _ => envFinalizacaoFalha) 1 [0] planilhaExemplo 0 0
      = main_loop (fun _ => envFinalizacaoFalha) 1 []
          (logError "processamento do registro"
            "Falha ao finalizar atendimento: Modal não desapareceu a tempo" 0
            ((processar_registro envFinalizacaoFalha 1 0 planilhaExemplo).1)) 0 1
    ∧ obsNa (logError "processamento do registro"
          "Falha ao finalizar atendimento: Modal não desapareceu a tempo" 0
          planilhaExemplo) 0
        = some (.strC ("Erro em " ++ "processamento do registro" ++ ": "
            ++ "Falha ao finalizar atendimento: Modal não desapareceu a tempo")) :=
  ⟨C3_loop_degrades_and_continues.1 (fun _ => envFinalizacaoFalha) 1 0 []
      planilhaExemplo _ 0 0 _ (by decide),
   (C3_loop_degrades_and_continues.2
      "processamento do registro"
      "Falha ao finalizar atendimento: Modal não desapareceu a tempo"
      0 planilhaExemplo).2 (by decide)⟩

/-! ## C4 -/

/-- C4: when none of the 3 login attempts succeeds, `login` raises
`LoginError`, `main` propagates it, and — since the spreadsheet is only
loaded after a successful login — the run's outcome is independent of the
spreadsheet and of the per-row environment: no row is processed. -/
theorem C4_login_failure_aborts (attOk : Nat → Bool)
    (h : ∀ t, t < 3 → attOk t = false) :
    login attOk 0 3 = .error .loginError
    ∧ (∀ (envs envs' : Nat → RowEnv) (fuel fuel' : Nat) (df df' : List Row),
        mainRun attOk envs fuel df = .error .loginError
        ∧ mainRun attOk envs fuel df = mainRun attOk envs' fuel' df') := by
  have h0 := h 0 (by omega)
  have h1 := h 1 (by omega)
  have h2 := h 2 (by omega)
  have hl : login attOk 0 3 = .error .loginError := by
    simp [login, h0, h1, h2]
  exact ⟨hl, fun envs envs' fuel fuel' df df' =>
    ⟨by simp [mainRun, hl], by simp [mainRun, hl]⟩⟩

/-- Witness for C4 with every attempt failing. -/
theorem C4_witness :
    login (fun _ => false) 0 3 = .error .loginError
    ∧ mainRun (fun _ => false) (fun _ => succRowEnv) 1 [linhaExemplo]
        = .error .loginError :=
  ⟨(C4_login_failure_aborts (fun _ => false) (fun _ _ => rfl)).1,
   ((C4_login_failure_aborts (fun _ => false) (fun _ _ => rfl)).2
      (fun _ => succRowEnv) (fun _ => succRowEnv) 1 1 [linhaExemplo] [linhaExemplo]).1⟩

/-! ## C5 -/

/-- C5: whether row `i` succeeds, fails, or raises, everything written into
the table during its processing has been persisted to the file before the
loop starts the next row. -/
theorem C5_persisted_between_rows
    (envs : Nat → RowEnv) (fuel i : Nat) (resto : List Nat) (p : Planilha)
    (processados comErro : Nat) (h : p.file = p.table) :
    ∃ (q : Planilha) (processados' comErro' : Nat),
      main_loop envs fuel (i :: resto) p processados comErro
        = main_loop envs fuel resto q processados' comErro'
      ∧ q.file = q.table := by
  have hq := processar_file_eq (envs i) fuel i p h
  rcases hstep : processar_registro (envs i) fuel i p with ⟨q, out⟩
  rw [hstep] at hq
  cases out with
  | processado => exact ⟨q, processados + 1, comErro, by simp [main_loop, hstep], hq⟩
  | comErro => exact ⟨q, processados, comErro + 1, by simp [main_loop, hstep], hq⟩
  | excecao m =>
    exact ⟨logError "processamento do registro" m i q, processados, comErro + 1,
      by simp [main_loop, hstep], rfl⟩

/-- Witness for C5 on a concrete row whose finalisation fails. -/
theorem C5_witness :
    ∃ (q : Planilha) (processados' comErro' : Nat),
      main_loop (fun _ => envFinalizacaoFalha) 1 [0] planilhaExemplo 0 0
        = main_loop (fun _ => envFinalizacaoFalha) 1 [] q processados' comErro'
      ∧ q.file = q.table :=
  C5_persisted_between_rows (fun _ => envFinalizacaoFalha) 1 0 [] planilhaExemplo 0 0 rfl

/-! ## C6 -/

/-- C6: `tentar_preencher_formulario` is a bounded retry: its outcome only
depends on the first 3 attempts; a first attempt that returns is passed
through untouched; and when every attempt raises `FormularioError` the
final attempt's message is recorded in the row's Observação as
`"Erro após 3 tentativas: …"`, the sheet is persisted, and `None` is
returned (no exception escapes, so the batch continues). -/
theorem C6_bounded_retry :
    (∀ (att att' : Nat → Planilha → AttRes) (i : Nat) (p : Planilha),
        (∀ t, t < 3 → att t = att' t) →
        tentar_preencher_formulario att i p = tentar_preencher_formulario att' i p)
    ∧ (∀ (att : Nat → Planilha → AttRes) (i : Nat) (p q : Planilha) (r : Option String),
        att 0 p = .retorna q r → tentar_preencher_formulario att i p = .retorno q r)
    ∧ (∀ (att : Nat → Planilha → AttRes) (g : Nat → Planilha → Planilha)
          (m : Nat → String) (i : Nat) (p : Planilha),
        (∀ t q, att t q = .excFormulario (g t q) (m t)) →
        tentar_preencher_formulario att i p
          = .retorno (toExcel (setObs i ("Erro após 3 tentativas: " ++ m 2)
              (g 2 (g 1 (g 0 p))))) none) := by
  refine ⟨?_, ?_, ?_⟩
  · intro att att' i p h
    have h0 := h 0 (by omega)
    have h1 := h 1 (by omega)
    have h2 := h 2 (by omega)
    simp [tentar_preencher_formulario, tentarAux, h0, h1, h2]
  · intro att i p q r h
    simp [tentar_preencher_formulario, tentarAux, h]
  · intro att g m i p h
    have hs : ("Erro após " ++ toString (3 : Nat) ++ " tentativas: " ++ m 2)
        = "Erro após 3 tentativas: " ++ m 2 := rfl
    simp [tentar_preencher_formulario, tentarAux, h, hs]

/-- An attempt body that always raises `FormularioError`, leaving the
state unchanged. -/
def attExemplo : Nat → Planilha → AttRes :=
  fun t q => .excFormulario q ("falha " ++ toString t)

/-- Witness for C6 with every attempt raising `FormularioError`. -/
theorem C6_witness :
    tentar_preencher_formulario attExemplo 0 planilhaExemplo
      = .retorno (toExcel (setObs 0 ("Erro após 3 tentativas: " ++ "falha " ++ toString 2)
          planilhaExemplo)) none :=
  C6_bounded_retry.2.2 attExemplo (fun _ q => q) (fun t => "falha " ++ toString t)
    0 planilhaExemplo (fun _ _ => rfl)

end RegistroChamados
